import Mathlib

/-!
Shallow embedding of the domain/selection geometry engine of
`src/components/containers/helper-methods.js`, together with proofs of
the spec's claims about it.

JavaScript numbers are modelled as rationals (`ℚ`); all arithmetic in
the source (`+`, `-`, `*`, `/ 2`, `Math.abs`, `Math.min`, `Math.max`)
is exact on the inputs the claims quantify over, so `ℚ` is a faithful
carrier.  The victory-core helpers `Collection.getMaxValue` /
`Collection.getMinValue` reduce to `max` / `min` on numeric values
(their date handling is out of scope: all claims are numeric), and the
`Collection.containsDates` re-wrapping branch of `pan` is the identity
on numeric domains.
-/

namespace VictoryChart

/-- A pixel-space box `{x1, x2, y1, y2}`; corners are not required to be
ordered (`x1 > x2` is a legal "inverted" box). -/
structure Box where
  x1 : ℚ
  x2 : ℚ
  y1 : ℚ
  y2 : ℚ
  deriving Repr, DecidableEq

/-- A pointer position `{x, y}`. -/
structure Point where
  x : ℚ
  y : ℚ
  deriving Repr, DecidableEq

/-- The `dimension` prop: the strings "x" or "y", or unset. -/
inductive Dimension where
  | x
  | y
  | unconstrained
  deriving Repr, DecidableEq

/-- A handle name: one of the keys "top", "bottom", "left", "right". -/
inductive HandleName where
  | top
  | bottom
  | left
  | right
  deriving Repr, DecidableEq

/-- `scale(currentDomain, originalDomain, factor)`:
```js
const [fromBound, toBound] = originalDomain;
const [from, to] = currentDomain;
const range = Math.abs(from - to);
const midpoint = +from + (range / 2);
const newRange = (range * factor) / 2;
return [
  Collection.getMaxValue([midpoint - newRange, fromBound]),
  Collection.getMinValue([midpoint + newRange, toBound])
];
```
Domains are 2-element arrays, embedded as pairs. -/
def scale (currentDomain originalDomain : ℚ × ℚ) (factor : ℚ) : ℚ × ℚ :=
  let fromBound := originalDomain.1
  let toBound := originalDomain.2
  let fromC := currentDomain.1
  let toC := currentDomain.2
  let range := |fromC - toC|
  let midpoint := fromC + range / 2
  let newRange := range * factor / 2
  (max (midpoint - newRange) fromBound, min (midpoint + newRange) toBound)

/-- `pan(currentDomain, originalDomain, delta)`:
```js
const [fromCurrent, toCurrent] = currentDomain.map((val) => +val);
const [fromOriginal, toOriginal] = originalDomain.map((val) => +val);
const lowerBound = fromCurrent + delta;
const upperBound = toCurrent + delta;
let newDomain;
if (lowerBound > fromOriginal && upperBound < toOriginal) {
  newDomain = [lowerBound, upperBound];
} else if (lowerBound < fromOriginal) {
  const dx = toCurrent - fromCurrent;
  newDomain = [fromOriginal, fromOriginal + dx];
} else if (upperBound > toOriginal) {
  const dx = toCurrent - fromCurrent;
  newDomain = [toOriginal - dx, toOriginal];
} else {
  newDomain = currentDomain;
}
```
The trailing `containsDates` branch re-wraps dates and is the identity
on numeric domains. -/
def pan (currentDomain originalDomain : ℚ × ℚ) (delta : ℚ) : ℚ × ℚ :=
  let fromCurrent := currentDomain.1
  let toCurrent := currentDomain.2
  let fromOriginal := originalDomain.1
  let toOriginal := originalDomain.2
  let lowerBound := fromCurrent + delta
  let upperBound := toCurrent + delta
  if lowerBound > fromOriginal ∧ upperBound < toOriginal then
    (lowerBound, upperBound)
  else if lowerBound < fromOriginal then
    let dx := toCurrent - fromCurrent
    (fromOriginal, fromOriginal + dx)
  else if upperBound > toOriginal then
    let dx := toCurrent - fromCurrent
    (toOriginal - dx, toOriginal)
  else
    currentDomain

/-- `withinBounds(point, bounds, padding)`:
```js
const {x1, x2, y1, y2} = bounds;
const {x, y} = point;
padding = padding ? padding / 2 : 0;
return x + padding >= Math.min(x1, x2) &&
  x - padding <= Math.max(x1, x2) &&
  y + padding >= Math.min(y1, y2) &&
  y - padding <= Math.max(y1, y2);
```
The optional `padding` argument is `Option ℚ`; the JS truthiness test
`padding ? padding / 2 : 0` sends both `undefined` and `0` to `0`. -/
def withinBounds (point : Point) (bounds : Box) (padding : Option ℚ) : Bool :=
  let pad : ℚ :=
    match padding with
    | some p => if p = 0 then 0 else p / 2
    | none => 0
  decide (point.x + pad ≥ min bounds.x1 bounds.x2 ∧
    point.x - pad ≤ max bounds.x1 bounds.x2 ∧
    point.y + pad ≥ min bounds.y1 bounds.y2 ∧
    point.y - pad ≤ max bounds.y1 bounds.y2)

/-- `getHandles(props, domainBox)` builds the record
`{left, right, top, bottom}` of thin hit-rectangles; the record is
embedded as a function from handle names.  `props.handleWidth` is the
only prop read:
```js
const minX = Math.min(x1, x2); ... const maxY = Math.max(y1, y2);
const handleWidth = props.handleWidth / 2;
return {
  left:   {x1: minX - handleWidth, x2: minX + handleWidth, y1, y2},
  right:  {x1: maxX - handleWidth, x2: maxX + handleWidth, y1, y2},
  top:    {x1, x2, y1: minY + handleWidth, y2: minY - handleWidth},
  bottom: {x1, x2, y1: maxY + handleWidth, y2: maxY - handleWidth}
};
``` -/
def getHandles (handleWidthProp : ℚ) (domainBox : Box) : HandleName → Box :=
  let minX := min domainBox.x1 domainBox.x2
  let maxX := max domainBox.x1 domainBox.x2
  let minY := min domainBox.y1 domainBox.y2
  let maxY := max domainBox.y1 domainBox.y2
  let handleWidth := handleWidthProp / 2
  fun h =>
    match h with
    | .left => ⟨minX - handleWidth, minX + handleWidth, domainBox.y1, domainBox.y2⟩
    | .right => ⟨maxX - handleWidth, maxX + handleWidth, domainBox.y1, domainBox.y2⟩
    | .top => ⟨domainBox.x1, domainBox.x2, minY + handleWidth, minY - handleWidth⟩
    | .bottom => ⟨domainBox.x1, domainBox.x2, maxY + handleWidth, maxY - handleWidth⟩

/-- The fixed probe order of `getActiveHandles`:
`const options = ["top", "bottom", "left", "right"];` -/
def handleOptions : List HandleName :=
  [HandleName.top, HandleName.bottom, HandleName.left, HandleName.right]

/-- `getActiveHandles(point, props, domainBox)`:
```js
const handles = this.getHandles(props, domainBox);
const options = ["top", "bottom", "left", "right"];
const activeHandles = options.reduce((memo, opt) => {
  memo = this.withinBounds(point, handles[opt]) ? memo.concat(opt) : memo;
  return memo;
}, []);
return activeHandles.length && activeHandles;
```
`withinBounds` is called without a padding argument (`undefined`,
embedded as `none`).  The JS return value is either the non-empty list
(truthy) or the number `0` (falsy); embedded as `some list` / `none`. -/
def getActiveHandles (point : Point) (handleWidthProp : ℚ) (domainBox : Box) :
    Option (List HandleName) :=
  let handles := getHandles handleWidthProp domainBox
  let activeHandles := handleOptions.foldl
    (fun memo opt => if withinBounds point (handles opt) none then memo ++ [opt] else memo)
    []
  if activeHandles.length ≠ 0 then some activeHandles else none

/-- The `mutations` record of `getResizeMutation`; each entry is a full
four-field box:
```js
const mutations = {
  left:   {x1: Math.max(x1, x2), x2: Math.min(x1, x2), y1, y2},
  right:  {x1: Math.min(x1, x2), x2: Math.max(x1, x2), y1, y2},
  top:    {y1: Math.max(y1, y2), y2: Math.min(y1, y2), x1, x2},
  bottom: {y1: Math.min(y1, y2), y2: Math.max(y1, y2), x1, x2}
};
``` -/
def mutations (box : Box) : HandleName → Box
  | .left => ⟨max box.x1 box.x2, min box.x1 box.x2, box.y1, box.y2⟩
  | .right => ⟨min box.x1 box.x2, max box.x1 box.x2, box.y1, box.y2⟩
  | .top => ⟨box.x1, box.x2, max box.y1 box.y2, min box.y1 box.y2⟩
  | .bottom => ⟨box.x1, box.x2, min box.y1 box.y2, max box.y1 box.y2⟩

/-- `getResizeMutation(box, handles)`:
```js
return handles.reduce((memo, current) => {
  return assign(memo, mutations[current]);
}, {});
```
The accumulator starts as the empty object `{}`; every `mutations`
entry carries all four fields of a box, so each `assign` replaces the
accumulator wholesale.  The partially-filled accumulator is embedded as
`Option Box`: `none` is the empty object, and merging a full mutation
into any accumulator yields that mutation. -/
def getResizeMutation (box : Box) (handles : List HandleName) : Option Box :=
  handles.foldl (fun _memo current => some (mutations box current)) none

/-- The props record read by `panBox`: the explicit box fields
`x1, x2, y1, y2`, the recorded gesture start `startX` / `startY`
(absent embedded as `none`), and the `dimension` constraint.
`props.x1` is tested for JS truthiness (`props.x1 ?`), so a present
`x1 = 0` still selects the `getDomainBox` branch. -/
structure PanProps where
  x1 : ℚ
  x2 : ℚ
  y1 : ℚ
  y2 : ℚ
  startX : Option ℚ
  startY : Option ℚ
  dimension : Dimension
  deriving Repr, DecidableEq

/-- `panBox(props, point)`:
```js
const {x1, x2, y1, y2} = props.x1 ?
  props : this.getDomainBox(props, fullDomain, selectedDomain);
const {x, y} = point;
const delta = {
  x: startX ? startX - x : 0,
  y: startY ? startY - y : 0
};
return {
  x1: dimension !== "y" ? Math.min(x1, x2) - delta.x : Math.min(x1, x2),
  x2: dimension !== "y" ? Math.max(x1, x2) - delta.x : Math.max(x1, x2),
  y1: dimension !== "x" ? Math.min(y1, y2) - delta.y : Math.min(y1, y2),
  y2: dimension !== "x" ? Math.max(y1, y2) - delta.y : Math.max(y1, y2)
};
```
When `props.x1` is falsy the box comes from `getDomainBox`, which calls
`Selection.getDomainCoordinates` in the external victory-core package;
that branch is outside the pure engine and is embedded as `none`.  The
JS truthiness tests `startX ?` / `startY ?` send both absent and zero
start coordinates to a zero delta. -/
def panBox (props : PanProps) (point : Point) : Option Box :=
  if props.x1 = 0 then none
  else
    let deltaX : ℚ :=
      match props.startX with
      | some sx => if sx = 0 then 0 else sx - point.x
      | none => 0
    let deltaY : ℚ :=
      match props.startY with
      | some sy => if sy = 0 then 0 else sy - point.y
      | none => 0
    some
      { x1 := if props.dimension ≠ Dimension.y then min props.x1 props.x2 - deltaX
              else min props.x1 props.x2
        x2 := if props.dimension ≠ Dimension.y then max props.x1 props.x2 - deltaX
              else max props.x1 props.x2
        y1 := if props.dimension ≠ Dimension.x then min props.y1 props.y2 - deltaY
              else min props.y1 props.y2
        y2 := if props.dimension ≠ Dimension.x then max props.y1 props.y2 - deltaY
              else max props.y1 props.y2 }

/-- `constrainBox(box, fullDomainBox)`:
```js
const {x1, y1, x2, y2} = fullDomainBox;
return {
  x1: box.x2 > x2 ? x2 - Math.abs(box.x2 - box.x1) : Math.max(box.x1, x1),
  y1: box.y2 > y2 ? y2 - Math.abs(box.y2 - box.y1) : Math.max(box.y1, y1),
  x2: box.x1 < x1 ? x1 + Math.abs(box.x2 - box.x1) : Math.min(box.x2, x2),
  y2: box.y1 < y1 ? y1 + Math.abs(box.y2 - box.y1) : Math.min(box.y2, y2)
};
``` -/
def constrainBox (box fullDomainBox : Box) : Box :=
  { x1 := if box.x2 > fullDomainBox.x2 then fullDomainBox.x2 - |box.x2 - box.x1|
          else max box.x1 fullDomainBox.x1
    y1 := if box.y2 > fullDomainBox.y2 then fullDomainBox.y2 - |box.y2 - box.y1|
          else max box.y1 fullDomainBox.y1
    x2 := if box.x1 < fullDomainBox.x1 then fullDomainBox.x1 + |box.x2 - box.x1|
          else min box.x2 fullDomainBox.x2
    y2 := if box.y1 < fullDomainBox.y1 then fullDomainBox.y1 + |box.y2 - box.y1|
          else min box.y2 fullDomainBox.y2 }

/-- C5: For every current domain `D`, every ordered original domain
`O = (oFrom, oTo)` with `oFrom ≤ oTo`, and every factor `f > 0`, the
domain returned by `scale D O f` is a subset of `O`: its lower bound is
`≥ oFrom` and its upper bound is `≤ oTo`. -/
theorem scale_subset_of_original (D O : ℚ × ℚ) (f : ℚ)
    (hf : 0 < f) (hO : O.1 ≤ O.2) :
    O.1 ≤ (scale D O f).1 ∧ (scale D O f).2 ≤ O.2 := by
  unfold scale
  exact ⟨le_max_right _ _, min_le_right _ _⟩

/-- C5 witness at `D = (40, 60)`, `O = (0, 100)`, `f = 1/2`. -/
theorem scale_subset_of_original_witness :
    (0 : ℚ) < 1 / 2 ∧ ((0 : ℚ), (100 : ℚ)).1 ≤ ((0 : ℚ), (100 : ℚ)).2 ∧
      (((0 : ℚ), (100 : ℚ)).1 ≤ (scale (40, 60) (0, 100) (1 / 2)).1 ∧
        (scale (40, 60) (0, 100) (1 / 2)).2 ≤ ((0 : ℚ), (100 : ℚ)).2) :=
  ⟨by norm_num, by norm_num,
    scale_subset_of_original (40, 60) (0, 100) (1 / 2) (by norm_num) (by norm_num)⟩

/-- C8: For every ordered current domain `D = (dFrom, dTo)` with
`dFrom ≤ dTo` contained in the original domain `O`
(`O.1 ≤ dFrom` and `dTo ≤ O.2`), scaling by factor 1 is the identity. -/
theorem scale_one_is_identity (D O : ℚ × ℚ)
    (hD : D.1 ≤ D.2) (h1 : O.1 ≤ D.1) (h2 : D.2 ≤ O.2) :
    scale D O 1 = D := by
  unfold scale
  have habs : |D.1 - D.2| = D.2 - D.1 := by
    rw [abs_sub_comm]
    exact abs_of_nonneg (by linarith)
  have hlo : D.1 + (D.2 - D.1) / 2 - (D.2 - D.1) * 1 / 2 = D.1 := by ring
  have hhi : D.1 + (D.2 - D.1) / 2 + (D.2 - D.1) * 1 / 2 = D.2 := by ring
  simp only [habs, hlo, hhi]
  rw [max_eq_left h1, min_eq_left h2]

/-- C8 witness at `D = (10, 20)`, `O = (0, 100)`. -/
theorem scale_one_is_identity_witness :
    ((10 : ℚ), (20 : ℚ)).1 ≤ ((10 : ℚ), (20 : ℚ)).2 ∧
      ((0 : ℚ), (100 : ℚ)).1 ≤ ((10 : ℚ), (20 : ℚ)).1 ∧
      ((10 : ℚ), (20 : ℚ)).2 ≤ ((0 : ℚ), (100 : ℚ)).2 ∧
      scale (10, 20) (0, 100) 1 = ((10 : ℚ), (20 : ℚ)) :=
  ⟨by norm_num, by norm_num, by norm_num,
    scale_one_is_identity (10, 20) (0, 100) (by norm_num) (by norm_num) (by norm_num)⟩

/-- C9: `withinBounds` is reflexive: each of the four corners of any box
(whatever its corner ordering) lies within the box with zero padding. -/
theorem withinBounds_reflexive_corners (b : Box) :
    withinBounds ⟨b.x1, b.y1⟩ b (some 0) = true ∧
      withinBounds ⟨b.x1, b.y2⟩ b (some 0) = true ∧
      withinBounds ⟨b.x2, b.y1⟩ b (some 0) = true ∧
      withinBounds ⟨b.x2, b.y2⟩ b (some 0) = true := by
  simp [withinBounds]

/-- One axis of `constrainBox`: with near edge `a1`, far edge `a2` and
outer edges `b1`, `b2`, the produced pair keeps the distance `|a2 - a1|`
provided the input does not overflow the outer pair on both sides. -/
lemma constrain_axis (a1 a2 b1 b2 : ℚ) (h : ¬(a2 > b2 ∧ a1 < b1)) :
    |(if a1 < b1 then b1 + |a2 - a1| else min a2 b2) -
      (if a2 > b2 then b2 - |a2 - a1| else max a1 b1)| = |a2 - a1| := by
  by_cases h2 : a2 > b2
  · have h1 : ¬ a1 < b1 := fun hlt => h ⟨h2, hlt⟩
    rw [if_neg h1, if_pos h2, min_eq_right (le_of_lt h2)]
    rw [sub_sub_cancel]
    exact abs_abs _
  · rw [if_neg h2]
    by_cases h1 : a1 < b1
    · rw [if_pos h1, max_eq_right (le_of_lt h1), add_sub_cancel_left]
      exact abs_abs _
    · rw [if_neg h1, min_eq_left (not_lt.mp h2), max_eq_left (not_lt.mp h1)]

/-- C1 counterexample: for `box = {x1:-1, x2:10, y1:0, y2:1}` and outer
box `{x1:0, x2:5, y1:0, y2:1}` — the box overflows the outer box on both
x sides — `constrainBox` returns a box of x-width 17, not the input's
width 11, so the claim as stated is false. -/
theorem constrainBox_size_counterexample :
    |(constrainBox ⟨-1, 10, 0, 1⟩ ⟨0, 5, 0, 1⟩).x2 -
        (constrainBox ⟨-1, 10, 0, 1⟩ ⟨0, 5, 0, 1⟩).x1| ≠ |(10 : ℚ) - -1| := by
  norm_num [constrainBox]

/-- C1 (amended): `constrainBox` preserves the box's width and height,
provided the box does not overflow the outer box on both sides of the
same axis (not both `box.x2 > O.x2` and `box.x1 < O.x1`, and likewise
for y). -/
theorem constrainBox_preserves_size (box O : Box)
    (hx : ¬(box.x2 > O.x2 ∧ box.x1 < O.x1))
    (hy : ¬(box.y2 > O.y2 ∧ box.y1 < O.y1)) :
    |(constrainBox box O).x2 - (constrainBox box O).x1| = |box.x2 - box.x1| ∧
      |(constrainBox box O).y2 - (constrainBox box O).y1| = |box.y2 - box.y1| :=
  ⟨constrain_axis box.x1 box.x2 O.x1 O.x2 hx,
    constrain_axis box.y1 box.y2 O.y1 O.y2 hy⟩

/-- C1 witness at `box = {0, 10, 0, 10}`, `O = {0, 5, 0, 20}`. -/
theorem constrainBox_preserves_size_witness :
    (¬((10 : ℚ) > 5 ∧ (0 : ℚ) < 0)) ∧ (¬((10 : ℚ) > 20 ∧ (0 : ℚ) < 0)) ∧
      (|(constrainBox ⟨0, 10, 0, 10⟩ ⟨0, 5, 0, 20⟩).x2 -
          (constrainBox ⟨0, 10, 0, 10⟩ ⟨0, 5, 0, 20⟩).x1| = |(10 : ℚ) - 0| ∧
        |(constrainBox ⟨0, 10, 0, 10⟩ ⟨0, 5, 0, 20⟩).y2 -
          (constrainBox ⟨0, 10, 0, 10⟩ ⟨0, 5, 0, 20⟩).y1| = |(10 : ℚ) - 0|) :=
  ⟨by norm_num, by norm_num,
    constrainBox_preserves_size ⟨0, 10, 0, 10⟩ ⟨0, 5, 0, 20⟩ (by norm_num) (by norm_num)⟩

/-- C2 counterexample: `pan([10,20], [0,100], -10)` translates the
domain exactly onto the lower bound (`[0,10]`, inside `[0,100]` with the
bounds inclusive), but the code's interior test is strict, every clamp
branch misses, and the untranslated `[10,20]` is returned. -/
theorem pan_boundary_counterexample :
    pan ((10 : ℚ), (20 : ℚ)) ((0 : ℚ), (100 : ℚ)) (-10) ≠ ((0 : ℚ), (10 : ℚ)) := by
  norm_num [pan]

/-- C2 (amended): if the translated domain lies strictly inside the
original domain (`oFrom < from + d` and `to + d < oTo`), `pan` returns
the translated domain. -/
theorem pan_translated_in_interior (D O : ℚ × ℚ) (d : ℚ)
    (h1 : O.1 < D.1 + d) (h2 : D.2 + d < O.2) :
    pan D O d = (D.1 + d, D.2 + d) := by
  simp only [pan]
  rw [if_pos ⟨h1, h2⟩]

/-- C2 witness: `pan([10,20], [0,100], 5) = [15,25]`. -/
theorem pan_translated_in_interior_witness :
    ((0 : ℚ) < 10 + 5) ∧ ((20 : ℚ) + 5 < 100) ∧
      pan ((10 : ℚ), 20) ((0 : ℚ), 100) 5 = ((10 : ℚ) + 5, (20 : ℚ) + 5) :=
  ⟨by norm_num, by norm_num,
    pan_translated_in_interior (10, 20) (0, 100) 5 (by norm_num) (by norm_num)⟩

/-- C6: if the translated domain exits the original domain on exactly
one side, `pan` returns a domain of the same width anchored at the
exceeded bound. -/
theorem pan_clamps_at_exceeded_bound (D O : ℚ × ℚ) (d : ℚ)
    (hD : D.1 ≤ D.2) (hO : O.1 ≤ O.2) :
    (D.1 + d < O.1 → D.2 + d ≤ O.2 → pan D O d = (O.1, O.1 + (D.2 - D.1))) ∧
      (O.1 ≤ D.1 + d → O.2 < D.2 + d → pan D O d = (O.2 - (D.2 - D.1), O.2)) := by
  constructor
  · intro h1 _
    simp only [pan]
    rw [if_neg (fun hc => absurd hc.1 (not_lt.mpr h1.le)), if_pos h1]
  · intro h1 h2
    simp only [pan]
    rw [if_neg (fun hc => absurd hc.2 (not_lt.mpr h2.le)),
      if_neg (not_lt.mpr h1), if_pos h2]

/-- C6 witness: `pan([10,20], [0,15], 10) = [5,15]` (upper-bound clamp,
width preserved). -/
theorem pan_clamps_at_exceeded_bound_witness :
    ((10 : ℚ) ≤ 20) ∧ ((0 : ℚ) ≤ 15) ∧ ((0 : ℚ) ≤ 10 + 10) ∧ ((15 : ℚ) < 20 + 10) ∧
      pan ((10 : ℚ), 20) ((0 : ℚ), 15) 10 = ((15 : ℚ) - (20 - 10), 15) :=
  ⟨by norm_num, by norm_num, by norm_num, by norm_num,
    (pan_clamps_at_exceeded_bound (10, 20) (0, 15) 10 (by norm_num) (by norm_num)).2
      (by norm_num) (by norm_num)⟩

/-- C3 counterexample: for `box = {x1:0, x2:1, y1:0, y2:1}` and handles
`["top", "left"]`, the claim predicts `{x1:1, x2:0, y1:1, y2:0}` (both
axes normalized), but `getResizeMutation` returns `{x1:1, x2:0, y1:0,
y2:1}`: the `left` mutation record carries all four fields, so it
overwrites the `top` mutation's y normalization with the input's y
edges. -/
theorem getResizeMutation_top_left_counterexample :
    getResizeMutation ⟨0, 1, 0, 1⟩ [HandleName.top, HandleName.left] ≠
      some ⟨1, 0, 1, 0⟩ := by
  simp [getResizeMutation, mutations]

/-- C3 (amended): with active handles `["top", "left"]`, the later
`left` mutation overrides every field of the earlier `top` mutation
(each mutation record sets all four fields), so the result normalizes
only the x edges and returns the y edges unchanged:
`{x1 = max(x1,x2), x2 = min(x1,x2), y1 = y1, y2 = y2}`. -/
theorem getResizeMutation_top_left_last_wins (box : Box) :
    getResizeMutation box [HandleName.top, HandleName.left] =
      some ⟨max box.x1 box.x2, min box.x1 box.x2, box.y1, box.y2⟩ := rfl

/-- Auxiliary: folding the `assign` step of `getResizeMutation` over a
non-empty handle list yields the mutation of some handle (in fact the
last), whatever the accumulator started as. -/
lemma foldl_assign_eq_some (box : Box) :
    ∀ (l : List HandleName) (init : Option Box), l ≠ [] →
      ∃ hn, l.foldl (fun _memo current => some (mutations box current)) init =
        some (mutations box hn) := by
  intro l
  induction l with
  | nil => exact fun init h => absurd rfl h
  | cons a t ih =>
    intro init _
    by_cases ht : t = []
    · subst ht
      exact ⟨a, rfl⟩
    · exact ih (some (mutations box a)) ht

/-- Auxiliary: every single mutation record preserves the min/max extent
of the box on both axes. -/
lemma mutations_preserve_extent (box : Box) (hn : HandleName) :
    min (mutations box hn).x1 (mutations box hn).x2 = min box.x1 box.x2 ∧
      max (mutations box hn).x1 (mutations box hn).x2 = max box.x1 box.x2 ∧
      min (mutations box hn).y1 (mutations box hn).y2 = min box.y1 box.y2 ∧
      max (mutations box hn).y1 (mutations box hn).y2 = max box.y1 box.y2 := by
  cases hn with
  | left => exact ⟨min_eq_right min_le_max, max_eq_left min_le_max, rfl, rfl⟩
  | right => exact ⟨min_eq_left min_le_max, max_eq_right min_le_max, rfl, rfl⟩
  | top => exact ⟨rfl, rfl, min_eq_right min_le_max, max_eq_left min_le_max⟩
  | bottom => exact ⟨rfl, rfl, min_eq_left min_le_max, max_eq_right min_le_max⟩

/-- C10: for every box and non-empty handle list, `getResizeMutation`
returns a box with the same min/max extent on both axes as the input:
it only swaps corner polarity, never moves or resizes the box. -/
theorem getResizeMutation_preserves_extent (box : Box) (handles : List HandleName)
    (h : handles ≠ []) :
    ∃ b, getResizeMutation box handles = some b ∧
      min b.x1 b.x2 = min box.x1 box.x2 ∧ max b.x1 b.x2 = max box.x1 box.x2 ∧
      min b.y1 b.y2 = min box.y1 box.y2 ∧ max b.y1 b.y2 = max box.y1 box.y2 := by
  obtain ⟨hn, heq⟩ := foldl_assign_eq_some box handles none h
  exact ⟨mutations box hn, heq, mutations_preserve_extent box hn⟩

/-- C10 witness at `box = {0, 10, 0, 10}`, handles `["left"]`. -/
theorem getResizeMutation_preserves_extent_witness :
    [HandleName.left] ≠ [] ∧
      ∃ b, getResizeMutation ⟨0, 10, 0, 10⟩ [HandleName.left] = some b ∧
        min b.x1 b.x2 = min (0 : ℚ) 10 ∧ max b.x1 b.x2 = max (0 : ℚ) 10 ∧
        min b.y1 b.y2 = min (0 : ℚ) 10 ∧ max b.y1 b.y2 = max (0 : ℚ) 10 :=
  ⟨by simp,
    getResizeMutation_preserves_extent ⟨0, 10, 0, 10⟩ [HandleName.left] (by simp)⟩

/-- C4 counterexample: for props carrying the explicit inverted box
`{x1:1, x2:2, y1:5, y2:3}`, start `(1,1)`, `dimension = "x"`, and
pointer `(0,0)`, the claim predicts the returned `y1` equals the input's
`y1 = 5`, but `panBox` returns `y1 = min(5,3) = 3`: the excluded axis is
normalized, not returned verbatim. -/
theorem panBox_unchanged_counterexample :
    (panBox ⟨1, 2, 5, 3, some 1, some 1, Dimension.x⟩ ⟨0, 0⟩).map Box.y1 ≠
      some (5 : ℚ) := by
  norm_num [panBox]

/-- C4 (amended): for props carrying an explicit box (truthy `x1`), with
`dimension = "x"` the returned box's y edges are the normalized pair
`(min(y1,y2), max(y1,y2))` of the input's y edges — untranslated but
polarity-normalized; symmetrically for `dimension = "y"` and the x
edges. -/
theorem panBox_dimension_suppresses_translation (props : PanProps) (point : Point)
    (h : props.x1 ≠ 0) :
    ∃ b, panBox props point = some b ∧
      (props.dimension = Dimension.x →
        b.y1 = min props.y1 props.y2 ∧ b.y2 = max props.y1 props.y2) ∧
      (props.dimension = Dimension.y →
        b.x1 = min props.x1 props.x2 ∧ b.x2 = max props.x1 props.x2) := by
  simp only [panBox, if_neg h]
  refine ⟨_, rfl, fun hd => ?_, fun hd => ?_⟩
  · rw [hd]
    simp
  · rw [hd]
    simp

/-- C4 witness at props `{x1:1, x2:2, y1:5, y2:3, startX:1, startY:1,
dimension:"x"}` and pointer `(0,0)`. -/
theorem panBox_dimension_suppresses_translation_witness :
    (1 : ℚ) ≠ 0 ∧
      ∃ b, panBox ⟨1, 2, 5, 3, some 1, some 1, Dimension.x⟩ ⟨0, 0⟩ = some b ∧
        (Dimension.x = Dimension.x → b.y1 = min (5 : ℚ) 3 ∧ b.y2 = max (5 : ℚ) 3) ∧
        (Dimension.x = Dimension.y → b.x1 = min (1 : ℚ) 2 ∧ b.x2 = max (1 : ℚ) 2) :=
  ⟨by norm_num,
    panBox_dimension_suppresses_translation ⟨1, 2, 5, 3, some 1, some 1, Dimension.x⟩
      ⟨0, 0⟩ (by norm_num)⟩

/-- `withinBounds` with an absent padding argument, unfolded to the four
normalized comparisons. -/
lemma withinBounds_none_iff (p : Point) (b : Box) :
    withinBounds p b none = true ↔
      (min b.x1 b.x2 ≤ p.x ∧ p.x ≤ max b.x1 b.x2 ∧
        min b.y1 b.y2 ≤ p.y ∧ p.y ≤ max b.y1 b.y2) := by
  simp [withinBounds]

/-- Membership in the top handle rectangle: full box width, a band of
half-thickness `hw/2` around the minimal y edge. -/
lemma withinBounds_top_handle (p : Point) (hw : ℚ) (b : Box) (hhw : 0 < hw) :
    withinBounds p (getHandles hw b .top) none = true ↔
      (min b.x1 b.x2 ≤ p.x ∧ p.x ≤ max b.x1 b.x2 ∧
        min b.y1 b.y2 - hw / 2 ≤ p.y ∧ p.y ≤ min b.y1 b.y2 + hw / 2) := by
  rw [withinBounds_none_iff]
  simp only [getHandles]
  rw [min_eq_right (by linarith : min b.y1 b.y2 - hw / 2 ≤ min b.y1 b.y2 + hw / 2),
    max_eq_left (by linarith : min b.y1 b.y2 - hw / 2 ≤ min b.y1 b.y2 + hw / 2)]

/-- Membership in the bottom handle rectangle: full box width, a band of
half-thickness `hw/2` around the maximal y edge. -/
lemma withinBounds_bottom_handle (p : Point) (hw : ℚ) (b : Box) (hhw : 0 < hw) :
    withinBounds p (getHandles hw b .bottom) none = true ↔
      (min b.x1 b.x2 ≤ p.x ∧ p.x ≤ max b.x1 b.x2 ∧
        max b.y1 b.y2 - hw / 2 ≤ p.y ∧ p.y ≤ max b.y1 b.y2 + hw / 2) := by
  rw [withinBounds_none_iff]
  simp only [getHandles]
  rw [min_eq_right (by linarith : max b.y1 b.y2 - hw / 2 ≤ max b.y1 b.y2 + hw / 2),
    max_eq_left (by linarith : max b.y1 b.y2 - hw / 2 ≤ max b.y1 b.y2 + hw / 2)]

/-- Membership in the left handle rectangle: full box height, a band of
half-thickness `hw/2` around the minimal x edge. -/
lemma withinBounds_left_handle (p : Point) (hw : ℚ) (b : Box) (hhw : 0 < hw) :
    withinBounds p (getHandles hw b .left) none = true ↔
      (min b.x1 b.x2 - hw / 2 ≤ p.x ∧ p.x ≤ min b.x1 b.x2 + hw / 2 ∧
        min b.y1 b.y2 ≤ p.y ∧ p.y ≤ max b.y1 b.y2) := by
  rw [withinBounds_none_iff]
  simp only [getHandles]
  rw [min_eq_left (by linarith : min b.x1 b.x2 - hw / 2 ≤ min b.x1 b.x2 + hw / 2),
    max_eq_right (by linarith : min b.x1 b.x2 - hw / 2 ≤ min b.x1 b.x2 + hw / 2)]

/-- Membership in the right handle rectangle: full box height, a band of
half-thickness `hw/2` around the maximal x edge. -/
lemma withinBounds_right_handle (p : Point) (hw : ℚ) (b : Box) (hhw : 0 < hw) :
    withinBounds p (getHandles hw b .right) none = true ↔
      (max b.x1 b.x2 - hw / 2 ≤ p.x ∧ p.x ≤ max b.x1 b.x2 + hw / 2 ∧
        min b.y1 b.y2 ≤ p.y ∧ p.y ≤ max b.y1 b.y2) := by
  rw [withinBounds_none_iff]
  simp only [getHandles]
  rw [min_eq_left (by linarith : max b.x1 b.x2 - hw / 2 ≤ max b.x1 b.x2 + hw / 2),
    max_eq_right (by linarith : max b.x1 b.x2 - hw / 2 ≤ max b.x1 b.x2 + hw / 2)]

/-- C7: for a box whose width and height both strictly exceed
`handleWidth > 0`, `getActiveHandles` returns exactly the two adjoining
edge names (in the fixed order top, bottom, left, right) at each exact
corner, exactly the one edge name at each edge midpoint, and a falsy
value (`none`) at any point strictly further than `handleWidth / 2` from
every edge but inside the box. -/
theorem getActiveHandles_corners_edges_interior (hw : ℚ) (box : Box)
    (hhw : 0 < hw) (hwx : hw < |box.x2 - box.x1|) (hwy : hw < |box.y2 - box.y1|) :
    getActiveHandles ⟨min box.x1 box.x2, min box.y1 box.y2⟩ hw box =
        some [HandleName.top, HandleName.left] ∧
      getActiveHandles ⟨max box.x1 box.x2, min box.y1 box.y2⟩ hw box =
        some [HandleName.top, HandleName.right] ∧
      getActiveHandles ⟨min box.x1 box.x2, max box.y1 box.y2⟩ hw box =
        some [HandleName.bottom, HandleName.left] ∧
      getActiveHandles ⟨max box.x1 box.x2, max box.y1 box.y2⟩ hw box =
        some [HandleName.bottom, HandleName.right] ∧
      getActiveHandles ⟨(min box.x1 box.x2 + max box.x1 box.x2) / 2,
          min box.y1 box.y2⟩ hw box = some [HandleName.top] ∧
      getActiveHandles ⟨(min box.x1 box.x2 + max box.x1 box.x2) / 2,
          max box.y1 box.y2⟩ hw box = some [HandleName.bottom] ∧
      getActiveHandles ⟨min box.x1 box.x2,
          (min box.y1 box.y2 + max box.y1 box.y2) / 2⟩ hw box = some [HandleName.left] ∧
      getActiveHandles ⟨max box.x1 box.x2,
          (min box.y1 box.y2 + max box.y1 box.y2) / 2⟩ hw box = some [HandleName.right] ∧
      ∀ p : Point, min box.x1 box.x2 + hw / 2 < p.x → p.x < max box.x1 box.x2 - hw / 2 →
        min box.y1 box.y2 + hw / 2 < p.y → p.y < max box.y1 box.y2 - hw / 2 →
        getActiveHandles p hw box = none := by
  have hX : hw < max box.x1 box.x2 - min box.x1 box.x2 := by
    rw [max_sub_min_eq_abs]
    exact hwx
  have hY : hw < max box.y1 box.y2 - min box.y1 box.y2 := by
    rw [max_sub_min_eq_abs]
    exact hwy
  have hxm : min box.x1 box.x2 ≤ max box.x1 box.x2 := min_le_max
  have hym : min box.y1 box.y2 ≤ max box.y1 box.y2 := min_le_max
  have htT : ∀ p : Point, min box.x1 box.x2 ≤ p.x → p.x ≤ max box.x1 box.x2 →
      min box.y1 box.y2 - hw / 2 ≤ p.y → p.y ≤ min box.y1 box.y2 + hw / 2 →
      withinBounds p (getHandles hw box .top) none = true := fun p h1 h2 h3 h4 =>
    (withinBounds_top_handle p hw box hhw).mpr ⟨h1, h2, h3, h4⟩
  have htF : ∀ p : Point, min box.y1 box.y2 + hw / 2 < p.y →
      withinBounds p (getHandles hw box .top) none = false := fun p h =>
    Bool.eq_false_iff.mpr fun hc => by
      obtain ⟨-, -, -, h4⟩ := (withinBounds_top_handle p hw box hhw).mp hc
      linarith
  have hbT : ∀ p : Point, min box.x1 box.x2 ≤ p.x → p.x ≤ max box.x1 box.x2 →
      max box.y1 box.y2 - hw / 2 ≤ p.y → p.y ≤ max box.y1 box.y2 + hw / 2 →
      withinBounds p (getHandles hw box .bottom) none = true := fun p h1 h2 h3 h4 =>
    (withinBounds_bottom_handle p hw box hhw).mpr ⟨h1, h2, h3, h4⟩
  have hbF : ∀ p : Point, p.y < max box.y1 box.y2 - hw / 2 →
      withinBounds p (getHandles hw box .bottom) none = false := fun p h =>
    Bool.eq_false_iff.mpr fun hc => by
      obtain ⟨-, -, h3, -⟩ := (withinBounds_bottom_handle p hw box hhw).mp hc
      linarith
  have hlT : ∀ p : Point, min box.x1 box.x2 - hw / 2 ≤ p.x →
      p.x ≤ min box.x1 box.x2 + hw / 2 →
      min box.y1 box.y2 ≤ p.y → p.y ≤ max box.y1 box.y2 →
      withinBounds p (getHandles hw box .left) none = true := fun p h1 h2 h3 h4 =>
    (withinBounds_left_handle p hw box hhw).mpr ⟨h1, h2, h3, h4⟩
  have hlF : ∀ p : Point, min box.x1 box.x2 + hw / 2 < p.x →
      withinBounds p (getHandles hw box .left) none = false := fun p h =>
    Bool.eq_false_iff.mpr fun hc => by
      obtain ⟨-, h2, -, -⟩ := (withinBounds_left_handle p hw box hhw).mp hc
      linarith
  have hrT : ∀ p : Point, max box.x1 box.x2 - hw / 2 ≤ p.x →
      p.x ≤ max box.x1 box.x2 + hw / 2 →
      min box.y1 box.y2 ≤ p.y → p.y ≤ max box.y1 box.y2 →
      withinBounds p (getHandles hw box .right) none = true := fun p h1 h2 h3 h4 =>
    (withinBounds_right_handle p hw box hhw).mpr ⟨h1, h2, h3, h4⟩
  have hrF : ∀ p : Point, p.x < max box.x1 box.x2 - hw / 2 →
      withinBounds p (getHandles hw box .right) none = false := fun p h =>
    Bool.eq_false_iff.mpr fun hc => by
      obtain ⟨h1, -, -, -⟩ := (withinBounds_right_handle p hw box hhw).mp hc
      linarith
  refine ⟨?_, ?_, ?_, ?_, ?_, ?_, ?_, ?_, ?_⟩
  · have ht := htT ⟨min box.x1 box.x2, min box.y1 box.y2⟩
      (by linarith) (by linarith) (by linarith) (by linarith)
    have hb := hbF ⟨min box.x1 box.x2, min box.y1 box.y2⟩ (by linarith)
    have hl := hlT ⟨min box.x1 box.x2, min box.y1 box.y2⟩
      (by linarith) (by linarith) (by linarith) (by linarith)
    have hr := hrF ⟨min box.x1 box.x2, min box.y1 box.y2⟩ (by linarith)
    simp [getActiveHandles, handleOptions, ht, hb, hl, hr]
  · have ht := htT ⟨max box.x1 box.x2, min box.y1 box.y2⟩
      (by linarith) (by linarith) (by linarith) (by linarith)
    have hb := hbF ⟨max box.x1 box.x2, min box.y1 box.y2⟩ (by linarith)
    have hl := hlF ⟨max box.x1 box.x2, min box.y1 box.y2⟩ (by linarith)
    have hr := hrT ⟨max box.x1 box.x2, min box.y1 box.y2⟩
      (by linarith) (by linarith) (by linarith) (by linarith)
    simp [getActiveHandles, handleOptions, ht, hb, hl, hr]
  · have ht := htF ⟨min box.x1 box.x2, max box.y1 box.y2⟩ (by linarith)
    have hb := hbT ⟨min box.x1 box.x2, max box.y1 box.y2⟩
      (by linarith) (by linarith) (by linarith) (by linarith)
    have hl := hlT ⟨min box.x1 box.x2, max box.y1 box.y2⟩
      (by linarith) (by linarith) (by linarith) (by linarith)
    have hr := hrF ⟨min box.x1 box.x2, max box.y1 box.y2⟩ (by linarith)
    simp [getActiveHandles, handleOptions, ht, hb, hl, hr]
  · have ht := htF ⟨max box.x1 box.x2, max box.y1 box.y2⟩ (by linarith)
    have hb := hbT ⟨max box.x1 box.x2, max box.y1 box.y2⟩
      (by linarith) (by linarith) (by linarith) (by linarith)
    have hl := hlF ⟨max box.x1 box.x2, max box.y1 box.y2⟩ (by linarith)
    have hr := hrT ⟨max box.x1 box.x2, max box.y1 box.y2⟩
      (by linarith) (by linarith) (by linarith) (by linarith)
    simp [getActiveHandles, handleOptions, ht, hb, hl, hr]
  · have ht := htT ⟨(min box.x1 box.x2 + max box.x1 box.x2) / 2, min box.y1 box.y2⟩
      (by linarith) (by linarith) (by linarith) (by linarith)
    have hb := hbF ⟨(min box.x1 box.x2 + max box.x1 box.x2) / 2, min box.y1 box.y2⟩
      (by linarith)
    have hl := hlF ⟨(min box.x1 box.x2 + max box.x1 box.x2) / 2, min box.y1 box.y2⟩
      (by linarith)
    have hr := hrF ⟨(min box.x1 box.x2 + max box.x1 box.x2) / 2, min box.y1 box.y2⟩
      (by linarith)
    simp only [min_add_max] at ht hb hl hr
    simp [getActiveHandles, handleOptions, ht, hb, hl, hr]
  · have ht := htF ⟨(min box.x1 box.x2 + max box.x1 box.x2) / 2, max box.y1 box.y2⟩
      (by linarith)
    have hb := hbT ⟨(min box.x1 box.x2 + max box.x1 box.x2) / 2, max box.y1 box.y2⟩
      (by linarith) (by linarith) (by linarith) (by linarith)
    have hl := hlF ⟨(min box.x1 box.x2 + max box.x1 box.x2) / 2, max box.y1 box.y2⟩
      (by linarith)
    have hr := hrF ⟨(min box.x1 box.x2 + max box.x1 box.x2) / 2, max box.y1 box.y2⟩
      (by linarith)
    simp only [min_add_max] at ht hb hl hr
    simp [getActiveHandles, handleOptions, ht, hb, hl, hr]
  · have ht := htF ⟨min box.x1 box.x2, (min box.y1 box.y2 + max box.y1 box.y2) / 2⟩
      (by linarith)
    have hb := hbF ⟨min box.x1 box.x2, (min box.y1 box.y2 + max box.y1 box.y2) / 2⟩
      (by linarith)
    have hl := hlT ⟨min box.x1 box.x2, (min box.y1 box.y2 + max box.y1 box.y2) / 2⟩
      (by linarith) (by linarith) (by linarith) (by linarith)
    have hr := hrF ⟨min box.x1 box.x2, (min box.y1 box.y2 + max box.y1 box.y2) / 2⟩
      (by linarith)
    simp only [min_add_max] at ht hb hl hr
    simp [getActiveHandles, handleOptions, ht, hb, hl, hr]
  · have ht := htF ⟨max box.x1 box.x2, (min box.y1 box.y2 + max box.y1 box.y2) / 2⟩
      (by linarith)
    have hb := hbF ⟨max box.x1 box.x2, (min box.y1 box.y2 + max box.y1 box.y2) / 2⟩
      (by linarith)
    have hl := hlF ⟨max box.x1 box.x2, (min box.y1 box.y2 + max box.y1 box.y2) / 2⟩
      (by linarith)
    have hr := hrT ⟨max box.x1 box.x2, (min box.y1 box.y2 + max box.y1 box.y2) / 2⟩
      (by linarith) (by linarith) (by linarith) (by linarith)
    simp only [min_add_max] at ht hb hl hr
    simp [getActiveHandles, handleOptions, ht, hb, hl, hr]
  · intro p h1 h2 h3 h4
    simp [getActiveHandles, handleOptions, htF p (by linarith), hbF p (by linarith),
      hlF p (by linarith), hrF p (by linarith)]

/-- C7 witness at `handleWidth = 2`, `box = {0, 10, 0, 10}`: the
minimal corner and an interior point. -/
theorem getActiveHandles_corners_edges_interior_witness :
    (0 : ℚ) < 2 ∧ (2 : ℚ) < |(10 : ℚ) - 0| ∧
      getActiveHandles ⟨0, 0⟩ 2 ⟨0, 10, 0, 10⟩ =
        some [HandleName.top, HandleName.left] ∧
      getActiveHandles ⟨5, 5⟩ 2 ⟨0, 10, 0, 10⟩ = none := by
  refine ⟨by norm_num, by norm_num, ?_, ?_⟩
  · have h := (getActiveHandles_corners_edges_interior 2 ⟨0, 10, 0, 10⟩ (by norm_num)
      (by norm_num) (by norm_num)).1
    norm_num [min_def] at h
    exact h
  · exact (getActiveHandles_corners_edges_interior 2 ⟨0, 10, 0, 10⟩ (by norm_num)
      (by norm_num) (by norm_num)).2.2.2.2.2.2.2.2 ⟨5, 5⟩
      (by norm_num [min_def]) (by norm_num [max_def])
      (by norm_num [min_def]) (by norm_num [max_def])

end VictoryChart
